import Mathlib

/-!
Verification development for the DJ Python announcement pipeline
(`src/ai_dj/dj_python.py`).

The script polls a Supabase `songs` table for rows flagged `is_dsw = true`
with `dsw_announced = false`, synthesizes a spoken announcement via a local
TTS endpoint, uploads the audio to Supabase storage, inserts a queue row
that plays next, and finally marks the song row `dsw_announced = true`.

Shallow embedding notes:
- the `songs` table is a `List Song`; both catalog rows and injected
  announcement rows live in this one table, exactly as in the source;
- every external call (HTTP TTS, storage upload, public-URL resolution,
  table insert, table update, table fetch) is resolved by an `Env` of
  oracle functions, so a single run is a pure function of the environment
  and the starting table;
- Python exceptions are modelled by the oracles reporting failure; the
  only exception that escapes a handler in the source is one raised by the
  acknowledgement update (or the fetch), which is caught by the outer
  `try` of `check_for_dead_songs` — modelled by a Boolean escape flag;
- `print` calls and external calls are recorded in one event trace so that
  claims about logging and about which calls were performed are statable.
-/

namespace DJPython

/-- One row of the Supabase `songs` table.  The fields are exactly the
columns the script reads or writes: the insert payload of
`inject_announcement` plus the `is_dsw` / `dsw_announced` flags used by
`check_for_dead_songs`. -/
structure Song where
  id : Nat
  uploader_id : String
  title : String
  artist_name : String
  source : String
  audio_url : String
  duration_sec : Nat
  status : String
  cover_art_url : String
  is_canvas : Bool
  is_dsw : Bool
  dsw_announced : Bool
deriving DecidableEq, Repr

/-- Outcome of the `requests.get` call in `generate_voicebox_audio`:
either the request raises (network error, timeout), or a final HTTP
response with a status code and a body arrives. -/
inductive HttpOutcome where
  | netError : HttpOutcome
  | response : Nat → List Nat → HttpOutcome
deriving DecidableEq, Repr

/-- Oracle for every external effect of one tick.  Counters `k` index the
successive per-song iterations of the batch loop, so each iteration draws
an independent uuid and database-assigned row id. -/
structure Env where
  /-- the initial `select` of `check_for_dead_songs` raises -/
  fetchFails : Bool
  /-- outcome of the TTS HTTP request for a given text -/
  tts : String → HttpOutcome
  /-- whether `supabase.storage...upload` succeeds for given bytes and path -/
  uploadOk : List Nat → String → Bool
  /-- result of `get_public_url` for a storage path -/
  publicUrl : String → String
  /-- `uuid.uuid4().hex[:8]` drawn at iteration `k` -/
  uuidHex : Nat → String
  /-- database-assigned id of the row inserted at iteration `k` -/
  freshId : Nat → Nat
  /-- whether the `songs` insert succeeds for a given row -/
  insertOk : Song → Bool
  /-- whether the `dsw_announced` update succeeds for a given id -/
  ackOk : Nat → Bool

/-- Combined trace of `print` log lines and external calls, in program
order.  `log...` constructors correspond one-to-one to the distinct
`print` statements of the source; `...Call` constructors record that an
external request was issued. -/
inductive Event where
  | fetchCall
  | ttsCall (text : String)
  | uploadCall (path : String)
  | urlCall (path : String)
  | insertCall (entry : Song)
  | ackCall (idv : Nat)
  | logDetected (title artist : String)
  | logGenerating (text : String)
  | logVoiceboxFailed
  | logStorageUploadFailed
  | logInjecting
  | logQueued
  | logDbInsertionFailed
  | logPollError
deriving DecidableEq, Repr

/-- `BOT_USER_ID` constant of the source. -/
def BOT_USER_ID : String := "dj-python-bot"

/-- `requests.Response.raise_for_status` raises an `HTTPError` exactly for
status codes in the 4xx and 5xx ranges. -/
def raisesForStatus (status : Nat) : Bool :=
  decide (400 ≤ status ∧ status < 600)

/-- The announcement script template built in `check_for_dead_songs`
(the Agent Zero hook is a placeholder returning this fixed template). -/
def dswScript (song : Song) : String :=
  "Attention Club Youniverse. The track " ++ song.title ++ " by " ++
  song.artist_name ++
  " just bombed the dance floor and hit zero stars. It is officially a Dead Song Walking. Next time you hear it, it\x27s the Farewell Play. Rest in peace."

/-- `generate_voicebox_audio`: prints, issues the TTS request, calls
`raise_for_status`, and returns the body; any exception is caught and
`None` is returned. -/
def generate_voicebox_audio (env : Env) (text : String) :
    Option (List Nat) × List Event :=
  match env.tts text with
  | HttpOutcome.netError =>
      (none, [Event.logGenerating text, Event.ttsCall text,
              Event.logVoiceboxFailed])
  | HttpOutcome.response status body =>
      if raisesForStatus status then
        (none, [Event.logGenerating text, Event.ttsCall text,
                Event.logVoiceboxFailed])
      else
        (some body, [Event.logGenerating text, Event.ttsCall text])

/-- Python truthiness of an optional byte string, as used by
`if not audio_bytes`: `None` and the empty byte string are falsy. -/
def truthyBytes : Option (List Nat) → Bool
  | none => false
  | some b => !b.isEmpty

/-- Python truthiness of an optional string, as used by
`if public_url`: `None` and the empty string are falsy. -/
def truthyStr : Option String → Bool
  | none => false
  | some s => !s.isEmpty

/-- `upload_to_supabase`: prepends the fixed `ai_dj/` prefix, uploads, and
resolves the public URL; any exception is caught and `None` is returned. -/
def upload_to_supabase (env : Env) (audio : List Nat) (filename : String) :
    Option String × List Event :=
  if env.uploadOk audio ("ai_dj/" ++ filename) then
    (some (env.publicUrl ("ai_dj/" ++ filename)),
     [Event.uploadCall ("ai_dj/" ++ filename),
      Event.urlCall ("ai_dj/" ++ filename)])
  else
    (none,
     [Event.uploadCall ("ai_dj/" ++ filename),
      Event.logStorageUploadFailed])

/-- The row inserted by `inject_announcement`.  `id` is database-assigned;
`is_dsw` and `dsw_announced` are the column defaults (the insert payload
does not set them), so a fresh announcement row is itself unflagged. -/
def queueEntry (idv : Nat) (public_url title : String) : Song :=
  { id := idv
    uploader_id := BOT_USER_ID
    title := title
    artist_name := "DJ Python"
    source := "ai_announcement"
    audio_url := public_url
    duration_sec := 15
    status := "next_play"
    cover_art_url := "https://i.pravatar.cc/150?u=djpython"
    is_canvas := false
    is_dsw := false
    dsw_announced := false }

/-- `inject_announcement`: prints, inserts the queue row, and catches any
insertion exception internally — the caller cannot observe the failure. -/
def inject_announcement (env : Env) (idv : Nat) (table : List Song)
    (public_url title : String) : List Song × List Event :=
  if env.insertOk (queueEntry idv public_url title) then
    (table ++ [queueEntry idv public_url title],
     [Event.logInjecting, Event.insertCall (queueEntry idv public_url title),
      Event.logQueued])
  else
    (table,
     [Event.logInjecting, Event.insertCall (queueEntry idv public_url title),
      Event.logDbInsertionFailed])

/-- Set the `dsw_announced` flag of a row. -/
def setAnnounced (s : Song) : Song := { s with dsw_announced := true }

/-- The acknowledgement update
`table("songs").update(dsw_announced := true).eq("id", idv)`:
sets `dsw_announced` on every row whose `id` matches the filter. -/
def acknowledge (table : List Song) (idv : Nat) : List Song :=
  table.map (fun s => if s.id = idv then setAnnounced s else s)

/-- The filename `dsw_alert_<uuid4 hex prefix>.mp3` built at iteration `k`. -/
def mkFilename (env : Env) (k : Nat) : String :=
  "dsw_alert_" ++ env.uuidHex k ++ ".mp3"

/-- The storage path produced for random identifier `r`: the fixed
`ai_dj/` prefix of `upload_to_supabase` applied to the fixed filename
shape of `check_for_dead_songs`. -/
def storagePathOf (r : String) : String :=
  "ai_dj/" ++ ("dsw_alert_" ++ r ++ ".mp3")

/-- The body of the `for song in songs` loop of `check_for_dead_songs` for
one song: print, build the script, synthesize, and — if the audio and then
the public URL are truthy — inject and acknowledge.  The Boolean result is
`true` exactly when an exception escapes this iteration (only the
acknowledgement update can raise here; every other call catches its own
exceptions). -/
def process_song (env : Env) (k : Nat) (table : List Song) (song : Song) :
    List Song × List Event × Bool :=
  let g := generate_voicebox_audio env (dswScript song)
  let log0 := Event.logDetected song.title song.artist_name :: g.2
  if truthyBytes g.1 then
    let u := upload_to_supabase env (g.1.getD []) (mkFilename env k)
    if truthyStr u.1 then
      let i := inject_announcement env (env.freshId k) table (u.1.getD "")
                 ("🚨 DSW Alert: " ++ song.title)
      if env.ackOk song.id then
        (acknowledge i.1 song.id,
         log0 ++ u.2 ++ i.2 ++ [Event.ackCall song.id], false)
      else
        (i.1, log0 ++ u.2 ++ i.2 ++ [Event.ackCall song.id], true)
    else
      (table, log0 ++ u.2, false)
  else
    (table, log0, false)

/-- The whole `for song in songs` loop: iterations run in order; an
escaping exception (acknowledgement failure) aborts the remaining
iterations and propagates. -/
def process_batch (env : Env) : Nat → List Song → List Song →
    List Song × List Event × Bool
  | _, table, [] => (table, [], false)
  | k, table, song :: rest =>
    let r := process_song env k table song
    if r.2.2 then (r.1, r.2.1, true)
    else
      let r2 := process_batch env (k + 1) r.1 rest
      (r2.1, r.2.1 ++ r2.2.1, r2.2.2)

/-- The fetch query of `check_for_dead_songs`:
rows with `is_dsw = true` and `dsw_announced = false`. -/
def fetchDead (table : List Song) : List Song :=
  table.filter (fun s => s.is_dsw && !s.dsw_announced)

/-- One tick of `check_for_dead_songs`: fetch, then run the loop over the
fetched batch; any exception reaching the outer `try` (fetch failure, or
an acknowledgement failure escaping the loop) is caught and logged by the
single generic `Error polling Supabase` handler.  An empty fetch result
returns early, which coincides with running the loop on the empty batch. -/
def check_for_dead_songs (env : Env) (table : List Song) :
    List Song × List Event :=
  if env.fetchFails then
    (table, [Event.fetchCall, Event.logPollError])
  else
    let r := process_batch env 0 table (fetchDead table)
    if r.2.2 then
      (r.1, Event.fetchCall :: r.2.1 ++ [Event.logPollError])
    else
      (r.1, Event.fetchCall :: r.2.1)

/-! ### Concrete fixtures used by closed theorems and witnesses -/

/-- A flagged, unannounced catalog row. -/
def songA : Song :=
  { id := 1, uploader_id := "u1", title := "SongA", artist_name := "ArtistA",
    source := "upload", audio_url := "https://a", duration_sec := 100,
    status := "normal", cover_art_url := "", is_canvas := false,
    is_dsw := true, dsw_announced := false }

/-- A second flagged, unannounced catalog row. -/
def songB : Song :=
  { id := 2, uploader_id := "u2", title := "SongB", artist_name := "ArtistB",
    source := "upload", audio_url := "https://b", duration_sec := 90,
    status := "normal", cover_art_url := "", is_canvas := false,
    is_dsw := true, dsw_announced := false }

/-- The entity of the acceptance example in the spec:
id 1, title Epic Fail, artist DJ X, flagged and unannounced. -/
def songEpic : Song :=
  { id := 1, uploader_id := "u7", title := "Epic Fail", artist_name := "DJ X",
    source := "upload", audio_url := "https://e", duration_sec := 120,
    status := "normal", cover_art_url := "", is_canvas := false,
    is_dsw := true, dsw_announced := false }

/-- An environment in which every external call succeeds. -/
def envOk : Env :=
  { fetchFails := false
    tts := fun _ => HttpOutcome.response 200 [1, 2, 3]
    uploadOk := fun _ _ => true
    publicUrl := fun p => "https://cdn.example/" ++ p
    uuidHex := fun _ => "abcd1234"
    freshId := fun k => 100 + k
    insertOk := fun _ => true
    ackOk := fun _ => true }

/-- Like `envOk` but the queue insert raises. -/
def envInsertFail : Env := { envOk with insertOk := fun _ => false }

/-- Like `envOk` but the acknowledgement update for id 1 raises. -/
def envAckFail : Env := { envOk with ackOk := fun i => decide (i ≠ 1) }

/-- Like `envOk` but the TTS endpoint answers with status 300 (a non-2xx
status outside the 4xx/5xx ranges) and a non-empty body. -/
def env300 : Env := { envOk with tts := fun _ => HttpOutcome.response 300 [7] }

/-- Like `envOk` but the initial fetch raises. -/
def envFetchFail : Env := { envOk with fetchFails := true }

/-! ### Helper lemmas about the event traces of each call -/

/-- The trace of `generate_voicebox_audio` has one of two shapes:
the failing one and the successful one. -/
theorem gen_shape (env : Env) (text : String) :
    (generate_voicebox_audio env text).2 =
      [Event.logGenerating text, Event.ttsCall text, Event.logVoiceboxFailed] ∨
    (generate_voicebox_audio env text).2 =
      [Event.logGenerating text, Event.ttsCall text] := by
  unfold generate_voicebox_audio
  cases env.tts text with
  | netError => exact Or.inl rfl
  | response status body =>
      cases h : raisesForStatus status <;> simp [h]

/-- The trace of `upload_to_supabase` has one of two shapes. -/
theorem upload_shape (env : Env) (audio : List Nat) (fn : String) :
    (upload_to_supabase env audio fn).2 =
      [Event.uploadCall ("ai_dj/" ++ fn), Event.urlCall ("ai_dj/" ++ fn)] ∨
    (upload_to_supabase env audio fn).2 =
      [Event.uploadCall ("ai_dj/" ++ fn), Event.logStorageUploadFailed] := by
  unfold upload_to_supabase
  cases h : env.uploadOk audio ("ai_dj/" ++ fn) <;> simp [h]

/-- The trace of `inject_announcement` has one of two shapes. -/
theorem inject_shape (env : Env) (idv : Nat) (table : List Song)
    (url ttl : String) :
    (inject_announcement env idv table url ttl).2 =
      [Event.logInjecting, Event.insertCall (queueEntry idv url ttl),
       Event.logQueued] ∨
    (inject_announcement env idv table url ttl).2 =
      [Event.logInjecting, Event.insertCall (queueEntry idv url ttl),
       Event.logDbInsertionFailed] := by
  unfold inject_announcement
  cases h : env.insertOk (queueEntry idv url ttl) <;> simp [h]

/-- The table produced by `inject_announcement` either gains exactly the
constructed queue row or is unchanged. -/
theorem inject_table_shape (env : Env) (idv : Nat) (table : List Song)
    (url ttl : String) :
    (inject_announcement env idv table url ttl).1 =
      table ++ [queueEntry idv url ttl] ∨
    (inject_announcement env idv table url ttl).1 = table := by
  unfold inject_announcement
  cases h : env.insertOk (queueEntry idv url ttl) <;> simp [h]

/-! ### Branch equations for one loop iteration -/

/-- Iteration outcome when the synthesized audio is falsy
(exception, error status, or empty body): the iteration only prints. -/
theorem process_song_synthFail (env : Env) (k : Nat) (table : List Song)
    (song : Song)
    (h1 : truthyBytes (generate_voicebox_audio env (dswScript song)).1 = false) :
    process_song env k table song =
      (table,
       Event.logDetected song.title song.artist_name ::
         (generate_voicebox_audio env (dswScript song)).2,
       false) := by
  simp [process_song, h1]

/-- Iteration outcome when the audio is truthy but the public URL is
falsy (upload raised): no injection and no acknowledgement happen. -/
theorem process_song_uploadFail (env : Env) (k : Nat) (table : List Song)
    (song : Song)
    (h1 : truthyBytes (generate_voicebox_audio env (dswScript song)).1 = true)
    (h2 : truthyStr (upload_to_supabase env
            ((generate_voicebox_audio env (dswScript song)).1.getD [])
            (mkFilename env k)).1 = false) :
    process_song env k table song =
      (table,
       Event.logDetected song.title song.artist_name ::
         ((generate_voicebox_audio env (dswScript song)).2 ++
          (upload_to_supabase env
            ((generate_voicebox_audio env (dswScript song)).1.getD [])
            (mkFilename env k)).2),
       false) := by
  simp [process_song, h1, h2]

/-- Iteration outcome when audio and URL are truthy and the
acknowledgement update succeeds: inject (which swallows its own errors),
then set `dsw_announced` on every row whose id matches. -/
theorem process_song_ackOk (env : Env) (k : Nat) (table : List Song)
    (song : Song)
    (h1 : truthyBytes (generate_voicebox_audio env (dswScript song)).1 = true)
    (h2 : truthyStr (upload_to_supabase env
            ((generate_voicebox_audio env (dswScript song)).1.getD [])
            (mkFilename env k)).1 = true)
    (h3 : env.ackOk song.id = true) :
    process_song env k table song =
      (acknowledge
         (inject_announcement env (env.freshId k) table
           ((upload_to_supabase env
               ((generate_voicebox_audio env (dswScript song)).1.getD [])
               (mkFilename env k)).1.getD "")
           ("🚨 DSW Alert: " ++ song.title)).1 song.id,
       Event.logDetected song.title song.artist_name ::
         ((generate_voicebox_audio env (dswScript song)).2 ++
          ((upload_to_supabase env
              ((generate_voicebox_audio env (dswScript song)).1.getD [])
              (mkFilename env k)).2 ++
           ((inject_announcement env (env.freshId k) table
               ((upload_to_supabase env
                   ((generate_voicebox_audio env (dswScript song)).1.getD [])
                   (mkFilename env k)).1.getD "")
               ("🚨 DSW Alert: " ++ song.title)).2 ++
            [Event.ackCall song.id]))),
       false) := by
  simp [process_song, h1, h2, h3]

/-- Iteration outcome when audio and URL are truthy and the
acknowledgement update raises: the exception escapes the iteration. -/
theorem process_song_ackFail (env : Env) (k : Nat) (table : List Song)
    (song : Song)
    (h1 : truthyBytes (generate_voicebox_audio env (dswScript song)).1 = true)
    (h2 : truthyStr (upload_to_supabase env
            ((generate_voicebox_audio env (dswScript song)).1.getD [])
            (mkFilename env k)).1 = true)
    (h3 : env.ackOk song.id = false) :
    process_song env k table song =
      ((inject_announcement env (env.freshId k) table
          ((upload_to_supabase env
              ((generate_voicebox_audio env (dswScript song)).1.getD [])
              (mkFilename env k)).1.getD "")
          ("🚨 DSW Alert: " ++ song.title)).1,
       Event.logDetected song.title song.artist_name ::
         ((generate_voicebox_audio env (dswScript song)).2 ++
          ((upload_to_supabase env
              ((generate_voicebox_audio env (dswScript song)).1.getD [])
              (mkFilename env k)).2 ++
           ((inject_announcement env (env.freshId k) table
               ((upload_to_supabase env
                   ((generate_voicebox_audio env (dswScript song)).1.getD [])
                   (mkFilename env k)).1.getD "")
               ("🚨 DSW Alert: " ++ song.title)).2 ++
            [Event.ackCall song.id]))),
       true) := by
  simp [process_song, h1, h2, h3]

set_option maxHeartbeats 1600000
set_option maxRecDepth 8192

/-- Every event of one loop iteration is a print of that iteration, the
TTS call, the upload or URL call for the iteration storage path, an
insert call, or the acknowledgement call for the id of the processed
song.  In particular the generic poll-error line is never emitted there,
and an upload call always targets the freshly generated path. -/
theorem process_song_events (env : Env) (k : Nat) (table : List Song)
    (song : Song) :
    ∀ e ∈ (process_song env k table song).2.1,
      (∃ t a, e = Event.logDetected t a) ∨
      (∃ t, e = Event.logGenerating t) ∨
      (∃ t, e = Event.ttsCall t) ∨
      e = Event.logVoiceboxFailed ∨
      e = Event.uploadCall ("ai_dj/" ++ mkFilename env k) ∨
      e = Event.urlCall ("ai_dj/" ++ mkFilename env k) ∨
      e = Event.logStorageUploadFailed ∨
      e = Event.logInjecting ∨
      (∃ q, e = Event.insertCall q) ∨
      e = Event.logQueued ∨
      e = Event.logDbInsertionFailed ∨
      e = Event.ackCall song.id := by
  cases h1 : truthyBytes (generate_voicebox_audio env (dswScript song)).1 with
  | false =>
      rw [process_song_synthFail env k table song h1]
      rcases gen_shape env (dswScript song) with hg | hg <;>
        simp [hg, List.forall_mem_cons]
  | true =>
      cases h2 : truthyStr (upload_to_supabase env
          ((generate_voicebox_audio env (dswScript song)).1.getD [])
          (mkFilename env k)).1 with
      | false =>
          rw [process_song_uploadFail env k table song h1 h2]
          rcases gen_shape env (dswScript song) with hg | hg <;>
          rcases upload_shape env
              ((generate_voicebox_audio env (dswScript song)).1.getD [])
              (mkFilename env k) with hu | hu <;>
            simp [hg, hu, List.forall_mem_cons, List.forall_mem_append]
      | true =>
          cases h3 : env.ackOk song.id with
          | false =>
              rw [process_song_ackFail env k table song h1 h2 h3]
              rcases gen_shape env (dswScript song) with hg | hg <;>
              rcases upload_shape env
                  ((generate_voicebox_audio env (dswScript song)).1.getD [])
                  (mkFilename env k) with hu | hu <;>
              rcases inject_shape env (env.freshId k) table
                  ((upload_to_supabase env
                      ((generate_voicebox_audio env (dswScript song)).1.getD [])
                      (mkFilename env k)).1.getD "")
                  ("🚨 DSW Alert: " ++ song.title) with hi | hi <;>
                simp [hg, hu, hi, List.forall_mem_cons, List.forall_mem_append]
          | true =>
              rw [process_song_ackOk env k table song h1 h2 h3]
              rcases gen_shape env (dswScript song) with hg | hg <;>
              rcases upload_shape env
                  ((generate_voicebox_audio env (dswScript song)).1.getD [])
                  (mkFilename env k) with hu | hu <;>
              rcases inject_shape env (env.freshId k) table
                  ((upload_to_supabase env
                      ((generate_voicebox_audio env (dswScript song)).1.getD [])
                      (mkFilename env k)).1.getD "")
                  ("🚨 DSW Alert: " ++ song.title) with hi | hi <;>
                simp [hg, hu, hi, List.forall_mem_cons, List.forall_mem_append]

/-! ### Batch and tick equations -/

/-- The loop over an empty fetched batch does nothing. -/
theorem process_batch_nil (env : Env) (k : Nat) (table : List Song) :
    process_batch env k table [] = (table, [], false) := rfl

/-- Unfolding of the loop when the first iteration does not raise. -/
theorem process_batch_cons (env : Env) (k : Nat) (table : List Song)
    (song : Song) (rest : List Song)
    (h : (process_song env k table song).2.2 = false) :
    process_batch env k table (song :: rest) =
      ((process_batch env (k + 1) (process_song env k table song).1 rest).1,
       (process_song env k table song).2.1 ++
         (process_batch env (k + 1) (process_song env k table song).1 rest).2.1,
       (process_batch env (k + 1) (process_song env k table song).1 rest).2.2) := by
  simp [process_batch, h]

/-- Unfolding of the loop when the first iteration raises: the remaining
iterations are skipped and the exception propagates. -/
theorem process_batch_cons_ex (env : Env) (k : Nat) (table : List Song)
    (song : Song) (rest : List Song)
    (h : (process_song env k table song).2.2 = true) :
    process_batch env k table (song :: rest) =
      ((process_song env k table song).1,
       (process_song env k table song).2.1, true) := by
  simp [process_batch, h]

/-- Unfolding of one tick when the fetch succeeds. -/
theorem check_unfold (env : Env) (table : List Song)
    (h : env.fetchFails = false) :
    check_for_dead_songs env table =
      (if (process_batch env 0 table (fetchDead table)).2.2 then
        ((process_batch env 0 table (fetchDead table)).1,
         Event.fetchCall :: (process_batch env 0 table (fetchDead table)).2.1
           ++ [Event.logPollError])
      else
        ((process_batch env 0 table (fetchDead table)).1,
         Event.fetchCall :: (process_batch env 0 table (fetchDead table)).2.1)) := by
  simp [check_for_dead_songs, h]

/-! ### Lemmas about the acknowledgement update -/

/-- After the update, every row whose id matches the filter carries
`dsw_announced = true`. -/
theorem mem_acknowledge_announced (table : List Song) (idv : Nat) (s : Song)
    (hs : s ∈ acknowledge table idv) (hid : s.id = idv) :
    s.dsw_announced = true := by
  rcases List.mem_map.mp hs with ⟨s0, _, rfl⟩
  by_cases h : s0.id = idv
  · simp [h, setAnnounced]
  · simp only [if_neg h] at hid ⊢
    exact absurd hid h

/-- After the update for `idv`, no row with that id is returned by the
fetch query any more. -/
theorem fetchDead_acknowledge (table : List Song) (idv : Nat) (s : Song)
    (hs : s ∈ fetchDead (acknowledge table idv)) : s.id ≠ idv := by
  intro hid
  have hmem : s ∈ acknowledge table idv := List.mem_of_mem_filter hs
  have hann := mem_acknowledge_announced table idv s hmem hid
  have := List.of_mem_filter hs
  simp [hann] at this

/-! ### Monotonicity of the `dsw_announced` flag -/

/-- Every row position of `t` survives into `t'` either unchanged or with
exactly its `dsw_announced` flag set.  This is the single-step and
whole-run invariant of the pipeline on pre-existing rows. -/
def RowsMono (t t' : List Song) : Prop :=
  t.length ≤ t'.length ∧
  ∀ i, i < t.length → (t'[i]? = t[i]? ∨ t'[i]? = (t[i]?).map setAnnounced)

theorem rowsMono_refl (t : List Song) : RowsMono t t :=
  ⟨Nat.le_refl _, fun _ _ => Or.inl rfl⟩

theorem setAnnounced_idem (s : Song) :
    setAnnounced (setAnnounced s) = setAnnounced s := rfl

theorem rowsMono_trans {t t' t'' : List Song}
    (h1 : RowsMono t t') (h2 : RowsMono t' t'') : RowsMono t t'' := by
  refine ⟨Nat.le_trans h1.1 h2.1, fun i hi => ?_⟩
  have hi' : i < t'.length := Nat.lt_of_lt_of_le hi h1.1
  rcases h2.2 i hi' with h | h <;> rcases h1.2 i hi with h' | h' <;>
    rw [h, h']
  · exact Or.inl rfl
  · exact Or.inr rfl
  · exact Or.inr rfl
  · right
    cases ht : t[i]? <;> simp [setAnnounced]

theorem rowsMono_append (t l : List Song) : RowsMono t (t ++ l) := by
  refine ⟨by simp, fun i hi => Or.inl ?_⟩
  exact List.getElem?_append_left hi

theorem rowsMono_acknowledge (t : List Song) (idv : Nat) :
    RowsMono t (acknowledge t idv) := by
  refine ⟨by simp [acknowledge], fun i hi => ?_⟩
  rw [acknowledge, List.getElem?_map, List.getElem?_eq_getElem hi]
  by_cases h : t[i].id = idv
  · exact Or.inr (by simp [h])
  · exact Or.inl (by simp [h])

theorem rowsMono_process_song (env : Env) (k : Nat) (table : List Song)
    (song : Song) : RowsMono table (process_song env k table song).1 := by
  cases h1 : truthyBytes (generate_voicebox_audio env (dswScript song)).1 with
  | false => rw [process_song_synthFail env k table song h1]; exact rowsMono_refl table
  | true =>
      cases h2 : truthyStr (upload_to_supabase env
          ((generate_voicebox_audio env (dswScript song)).1.getD [])
          (mkFilename env k)).1 with
      | false =>
          rw [process_song_uploadFail env k table song h1 h2]
          exact rowsMono_refl table
      | true =>
          have hinj : RowsMono table
              (inject_announcement env (env.freshId k) table
                ((upload_to_supabase env
                    ((generate_voicebox_audio env (dswScript song)).1.getD [])
                    (mkFilename env k)).1.getD "")
                ("🚨 DSW Alert: " ++ song.title)).1 := by
            rcases inject_table_shape env (env.freshId k) table
                ((upload_to_supabase env
                    ((generate_voicebox_audio env (dswScript song)).1.getD [])
                    (mkFilename env k)).1.getD "")
                ("🚨 DSW Alert: " ++ song.title) with h | h <;> rw [h]
            · exact rowsMono_append table _
            · exact rowsMono_refl table
          cases h3 : env.ackOk song.id with
          | false =>
              rw [process_song_ackFail env k table song h1 h2 h3]
              exact hinj
          | true =>
              rw [process_song_ackOk env k table song h1 h2 h3]
              exact rowsMono_trans hinj (rowsMono_acknowledge _ song.id)

theorem rowsMono_process_batch (env : Env) :
    ∀ (songs : List Song) (k : Nat) (table : List Song),
      RowsMono table (process_batch env k table songs).1
  | [], k, table => by rw [process_batch_nil]; exact rowsMono_refl table
  | song :: rest, k, table => by
      cases hex : (process_song env k table song).2.2 with
      | true =>
          rw [process_batch_cons_ex env k table song rest hex]
          exact rowsMono_process_song env k table song
      | false =>
          rw [process_batch_cons env k table song rest hex]
          exact rowsMono_trans (rowsMono_process_song env k table song)
            (rowsMono_process_batch env rest (k + 1)
              (process_song env k table song).1)

theorem rowsMono_check (env : Env) (table : List Song) :
    RowsMono table (check_for_dead_songs env table).1 := by
  cases hf : env.fetchFails with
  | true => simp [check_for_dead_songs, hf]; exact rowsMono_refl table
  | false =>
      rw [check_unfold env table hf]
      cases hex : (process_batch env 0 table (fetchDead table)).2.2 <;>
        simp [hex] <;> exact rowsMono_process_batch env (fetchDead table) 0 table

/-! ### String lemmas for storage paths -/

theorem data_append : ∀ (s t : String), (s ++ t).data = s.data ++ t.data
  | ⟨_⟩, ⟨_⟩ => rfl

/-- Distinct random identifiers produce distinct storage paths: the fixed
prefix and suffix cancel on both sides. -/
theorem storagePathOf_injective (r1 r2 : String)
    (h : storagePathOf r1 = storagePathOf r2) : r1 = r2 := by
  obtain ⟨l1⟩ := r1
  obtain ⟨l2⟩ := r2
  have hd := congrArg String.data h
  simp only [storagePathOf, data_append] at hd
  have h1 := List.append_cancel_left hd
  have h2 := List.append_cancel_right h1
  have h3 := List.append_cancel_left h2
  exact congrArg String.mk h3

/-- The generic poll-error line is never printed inside a loop iteration:
it belongs exclusively to the outer handler of `check_for_dead_songs`. -/
theorem process_song_no_pollError (env : Env) (k : Nat) (table : List Song)
    (song : Song) : Event.logPollError ∉ (process_song env k table song).2.1 := by
  intro h
  rcases process_song_events env k table song _ h with
    ⟨t, a, h'⟩ | ⟨t, h'⟩ | ⟨t, h'⟩ | h' | h' | h' | h' | h' | ⟨q, h'⟩ | h' | h' | h' <;>
    simp at h'

/-! ### Claim C1 -/

/-- Claim C1, counterexample.  With every step succeeding except the queue
insert (which raises inside `inject_announcement` and is swallowed there),
the run still sets `dsw_announced = true` on the entity, no queue row is
inserted, and the entity is not fetched again — the claim says the
announced flag would remain false and the entity would be retried. -/
theorem C1_counterexample :
    (check_for_dead_songs envInsertFail [songA]).1 = [setAnnounced songA] ∧
    fetchDead (check_for_dead_songs envInsertFail [songA]).1 = [] ∧
    Event.logDbInsertionFailed ∈ (check_for_dead_songs envInsertFail [songA]).2 := by
  decide

/-- Claim C1, amended.  If the queue insertion fails after a successful
synthesis and upload, the failure is logged and swallowed inside the
injector; the entity is nevertheless acknowledged — its announced flag is
set to true, no exception escapes the iteration, and the entity is not
fetched again by a later tick. -/
theorem C1_inject_failure_still_acknowledged (env : Env) (k : Nat)
    (table : List Song) (song : Song) (bytes : List Nat) (url : String)
    (h1 : (generate_voicebox_audio env (dswScript song)).1 = some bytes)
    (h2 : bytes.isEmpty = false)
    (h3 : (upload_to_supabase env bytes (mkFilename env k)).1 = some url)
    (h4 : url.isEmpty = false)
    (h5 : env.insertOk (queueEntry (env.freshId k) url
            ("🚨 DSW Alert: " ++ song.title)) = false)
    (h6 : env.ackOk song.id = true) :
    (process_song env k table song).1 = acknowledge table song.id ∧
    (process_song env k table song).2.2 = false ∧
    Event.logDbInsertionFailed ∈ (process_song env k table song).2.1 ∧
    ∀ s, s ∈ fetchDead (process_song env k table song).1 → s.id ≠ song.id := by
  have hone : (process_song env k table song).1 = acknowledge table song.id := by
    simp [process_song, truthyBytes, truthyStr, inject_announcement,
      h1, h2, h3, h4, h5, h6]
  refine ⟨hone, ?_, ?_, ?_⟩
  · simp [process_song, truthyBytes, truthyStr, h1, h2, h3, h4, h6]
  · simp [process_song, truthyBytes, truthyStr, inject_announcement,
      h1, h2, h3, h4, h5, h6]
  · intro s hs
    rw [hone] at hs
    exact fetchDead_acknowledge table song.id s hs

/-- Claim C1, witness for the amended theorem at a concrete input. -/
theorem C1_witness :
    (process_song envInsertFail 0 [songA] songA).1 = acknowledge [songA] songA.id ∧
    (process_song envInsertFail 0 [songA] songA).2.2 = false ∧
    Event.logDbInsertionFailed ∈ (process_song envInsertFail 0 [songA] songA).2.1 ∧
    ∀ s, s ∈ fetchDead (process_song envInsertFail 0 [songA] songA).1 →
      s.id ≠ songA.id :=
  C1_inject_failure_still_acknowledged envInsertFail 0 [songA] songA [1, 2, 3]
    "https://cdn.example/ai_dj/dsw_alert_abcd1234.mp3"
    (by decide) (by decide) (by decide) (by decide) (by decide) (by decide)

/-! ### Claim C2 -/

/-- Claim C2, counterexample.  With a batch of two unannounced entities
where the acknowledgement update of the first raises after its successful
injection: the second entity is never detected or processed in that tick
(the exception escapes the loop), and the failure is logged by the same
generic poll-error print that a fetch failure produces — not distinctly.
The first entity also remains unannounced. -/
theorem C2_counterexample :
    (check_for_dead_songs envAckFail [songA, songB]).1 =
      [songA, songB,
       queueEntry 100 "https://cdn.example/ai_dj/dsw_alert_abcd1234.mp3"
         ("🚨 DSW Alert: " ++ songA.title)] ∧
    Event.logPollError ∈ (check_for_dead_songs envAckFail [songA, songB]).2 ∧
    Event.logDetected songB.title songB.artist_name ∉
      (check_for_dead_songs envAckFail [songA, songB]).2 ∧
    (check_for_dead_songs envFetchFail [songA, songB]).2 =
      [Event.fetchCall, Event.logPollError] := by
  decide

/-- Claim C2, amended.  If the acknowledgement write of an entity raises
after its injection, the exception escapes the per-entity loop: the
remaining entities of the batch are skipped in that tick, and the tick
returns normally (non-fatal) after logging the failure with the same
generic poll-error handler used for fetch failures — not distinctly.
Retry only happens via the next tick. -/
theorem C2_ack_failure_aborts_batch (env : Env) (table : List Song)
    (song : Song) (rest : List Song)
    (hnf : env.fetchFails = false)
    (hfetch : fetchDead table = song :: rest)
    (hex : (process_song env 0 table song).2.2 = true) :
    check_for_dead_songs env table =
      ((process_song env 0 table song).1,
       Event.fetchCall :: (process_song env 0 table song).2.1
         ++ [Event.logPollError]) := by
  rw [check_unfold env table hnf, hfetch,
    process_batch_cons_ex env 0 table song rest hex]
  simp

/-- Claim C2, witness for the amended theorem at a concrete input. -/
theorem C2_witness :
    check_for_dead_songs envAckFail [songA, songB] =
      ((process_song envAckFail 0 [songA, songB] songA).1,
       Event.fetchCall :: (process_song envAckFail 0 [songA, songB] songA).2.1
         ++ [Event.logPollError]) :=
  C2_ack_failure_aborts_batch envAckFail [songA, songB] songA [songB]
    (by decide) (by decide) (by decide)

/-! ### Claim C3 -/

/-- Claim C3: per-entity isolation.  For a fetched batch `[a, b]` where
the iteration of `a` does not raise — which covers a synthesis failure, a
publish failure, and an injection failure of `a` (each of those is caught
and leaves the iteration with no escaping exception) — and every step of
`b` succeeds, `b` is still injected (its queue row is in the final table)
and acknowledged (every row with the id of `b` ends announced), and the
tick finishes without the batch aborting or the loop crashing (no
poll-error is logged). -/
theorem C3_isolation (env : Env) (table : List Song) (a b : Song)
    (bytesB : List Nat) (urlB : String)
    (hnf : env.fetchFails = false)
    (hfetch : fetchDead table = [a, b])
    (hA : (process_song env 0 table a).2.2 = false)
    (h1 : (generate_voicebox_audio env (dswScript b)).1 = some bytesB)
    (h2 : bytesB.isEmpty = false)
    (h3 : (upload_to_supabase env bytesB (mkFilename env 1)).1 = some urlB)
    (h4 : urlB.isEmpty = false)
    (h5 : env.insertOk (queueEntry (env.freshId 1) urlB
            ("🚨 DSW Alert: " ++ b.title)) = true)
    (h6 : env.ackOk b.id = true)
    (h7 : env.freshId 1 ≠ b.id) :
    (check_for_dead_songs env table).1 =
      acknowledge ((process_song env 0 table a).1 ++
        [queueEntry (env.freshId 1) urlB ("🚨 DSW Alert: " ++ b.title)]) b.id ∧
    queueEntry (env.freshId 1) urlB ("🚨 DSW Alert: " ++ b.title) ∈
      (check_for_dead_songs env table).1 ∧
    (∀ s, s ∈ (check_for_dead_songs env table).1 → s.id = b.id →
      s.dsw_announced = true) ∧
    Event.logPollError ∉ (check_for_dead_songs env table).2 := by
  have hB1 : (process_song env 1 (process_song env 0 table a).1 b).1 =
      acknowledge ((process_song env 0 table a).1 ++
        [queueEntry (env.freshId 1) urlB ("🚨 DSW Alert: " ++ b.title)]) b.id := by
    simp [process_song, truthyBytes, truthyStr, inject_announcement,
      h1, h2, h3, h4, h5, h6]
  have hB2 : (process_song env 1 (process_song env 0 table a).1 b).2.2 = false := by
    simp [process_song, truthyBytes, truthyStr, h1, h2, h3, h4, h6]
  have hrun : check_for_dead_songs env table =
      ((process_song env 1 (process_song env 0 table a).1 b).1,
       Event.fetchCall :: ((process_song env 0 table a).2.1 ++
         ((process_song env 1 (process_song env 0 table a).1 b).2.1 ++ []))) := by
    rw [check_unfold env table hnf, hfetch,
      process_batch_cons env 0 table a [b] hA,
      process_batch_cons env 1 (process_song env 0 table a).1 b [] hB2,
      process_batch_nil]
    simp [hB2]
  rw [hrun]
  refine ⟨hB1, ?_, ?_, ?_⟩
  · rw [hB1]
    refine List.mem_map.mpr ⟨queueEntry (env.freshId 1) urlB
      ("🚨 DSW Alert: " ++ b.title), by simp, ?_⟩
    have : (queueEntry (env.freshId 1) urlB ("🚨 DSW Alert: " ++ b.title)).id =
        env.freshId 1 := rfl
    rw [if_neg (by rw [this]; exact h7)]
  · intro s hs hid
    rw [hB1] at hs
    exact mem_acknowledge_announced _ b.id s hs hid
  · intro hmem
    rcases List.mem_cons.mp hmem with h | h
    · simp at h
    · rcases List.mem_append.mp h with h' | h'
      · exact process_song_no_pollError env 0 table a h'
      · rw [List.append_nil] at h'
        exact process_song_no_pollError env 1 (process_song env 0 table a).1 b h'

/-- Environment for the C3 witness: the synthesis call for `songA` raises
while every other call succeeds. -/
def envSynthFailA : Env :=
  { envOk with tts := fun t =>
      if t = dswScript songA then HttpOutcome.netError
      else HttpOutcome.response 200 [1, 2, 3] }

/-- Claim C3, witness at a concrete input in which the synthesis of the
first entity fails and the second entity succeeds end to end. -/
theorem C3_witness :
    (check_for_dead_songs envSynthFailA [songA, songB]).1 =
      acknowledge ((process_song envSynthFailA 0 [songA, songB] songA).1 ++
        [queueEntry (envSynthFailA.freshId 1)
          "https://cdn.example/ai_dj/dsw_alert_abcd1234.mp3"
          ("🚨 DSW Alert: " ++ songB.title)]) songB.id ∧
    queueEntry (envSynthFailA.freshId 1)
      "https://cdn.example/ai_dj/dsw_alert_abcd1234.mp3"
      ("🚨 DSW Alert: " ++ songB.title) ∈
      (check_for_dead_songs envSynthFailA [songA, songB]).1 ∧
    (∀ s, s ∈ (check_for_dead_songs envSynthFailA [songA, songB]).1 →
      s.id = songB.id → s.dsw_announced = true) ∧
    Event.logPollError ∉ (check_for_dead_songs envSynthFailA [songA, songB]).2 :=
  C3_isolation envSynthFailA [songA, songB] songA songB [1, 2, 3]
    "https://cdn.example/ai_dj/dsw_alert_abcd1234.mp3"
    (by decide) (by decide) (by decide) (by decide) (by decide) (by decide)
    (by decide) (by decide) (by decide) (by decide)

/-! ### Claim C4 -/

/-- Claim C4: a storage-upload failure aborts the entity before injection
and before acknowledgement.  The table is unchanged (no queue row, and
the announced flag of every row as it was), no insert or acknowledgement
call is issued, the upload failure is logged, and no exception escapes. -/
theorem C4_upload_failure_aborts (env : Env) (k : Nat) (table : List Song)
    (song : Song) (bytes : List Nat)
    (h1 : (generate_voicebox_audio env (dswScript song)).1 = some bytes)
    (h2 : bytes.isEmpty = false)
    (h3 : env.uploadOk bytes ("ai_dj/" ++ mkFilename env k) = false) :
    (process_song env k table song).1 = table ∧
    (process_song env k table song).2.2 = false ∧
    (∀ q, Event.insertCall q ∉ (process_song env k table song).2.1) ∧
    (∀ i, Event.ackCall i ∉ (process_song env k table song).2.1) ∧
    Event.logStorageUploadFailed ∈ (process_song env k table song).2.1 := by
  have h1t : truthyBytes (generate_voicebox_audio env (dswScript song)).1 = true := by
    rw [h1]; simp [truthyBytes, h2]
  have hgd : (generate_voicebox_audio env (dswScript song)).1.getD [] = bytes := by
    rw [h1]; rfl
  have hu : upload_to_supabase env bytes (mkFilename env k) =
      (none, [Event.uploadCall ("ai_dj/" ++ mkFilename env k),
              Event.logStorageUploadFailed]) := by
    simp [upload_to_supabase, h3]
  have h2t : truthyStr (upload_to_supabase env
      ((generate_voicebox_audio env (dswScript song)).1.getD [])
      (mkFilename env k)).1 = false := by
    rw [hgd, hu]
    rfl
  rw [process_song_uploadFail env k table song h1t h2t, hgd, hu]
  rcases gen_shape env (dswScript song) with hg | hg <;> rw [hg] <;>
    refine ⟨rfl, rfl, ?_, ?_, by simp⟩ <;> simp

/-- Environment for the C4 witness: storage upload raises. -/
def envUploadFail : Env := { envOk with uploadOk := fun _ _ => false }

/-- Claim C4, witness at a concrete input. -/
theorem C4_witness :
    (process_song envUploadFail 0 [songA] songA).1 = [songA] ∧
    (process_song envUploadFail 0 [songA] songA).2.2 = false ∧
    (∀ q, Event.insertCall q ∉ (process_song envUploadFail 0 [songA] songA).2.1) ∧
    (∀ i, Event.ackCall i ∉ (process_song envUploadFail 0 [songA] songA).2.1) ∧
    Event.logStorageUploadFailed ∈ (process_song envUploadFail 0 [songA] songA).2.1 :=
  C4_upload_failure_aborts envUploadFail 0 [songA] songA [1, 2, 3]
    (by decide) (by decide) (by decide)

/-! ### Claim C5 -/

/-- Claim C5: for the spec acceptance entity (id 1, title Epic Fail,
artist DJ X, flagged, unannounced) a fully successful run produces a
final table holding exactly the acknowledged entity plus one queue row,
whose status is `next_play`, source `ai_announcement`, artist the fixed
announcer label `DJ Python`, duration 15, and whose title is the
constructed announcement title containing the entity title. -/
theorem C5_epic_fail_run :
    (check_for_dead_songs envOk [songEpic]).1 =
      [{ songEpic with dsw_announced := true },
       queueEntry 100 "https://cdn.example/ai_dj/dsw_alert_abcd1234.mp3"
         ("🚨 DSW Alert: " ++ songEpic.title)] ∧
    (queueEntry 100 "https://cdn.example/ai_dj/dsw_alert_abcd1234.mp3"
       ("🚨 DSW Alert: " ++ songEpic.title)).status = "next_play" ∧
    (queueEntry 100 "https://cdn.example/ai_dj/dsw_alert_abcd1234.mp3"
       ("🚨 DSW Alert: " ++ songEpic.title)).source = "ai_announcement" ∧
    (queueEntry 100 "https://cdn.example/ai_dj/dsw_alert_abcd1234.mp3"
       ("🚨 DSW Alert: " ++ songEpic.title)).artist_name = "DJ Python" ∧
    (queueEntry 100 "https://cdn.example/ai_dj/dsw_alert_abcd1234.mp3"
       ("🚨 DSW Alert: " ++ songEpic.title)).duration_sec = 15 ∧
    (queueEntry 100 "https://cdn.example/ai_dj/dsw_alert_abcd1234.mp3"
       ("🚨 DSW Alert: " ++ songEpic.title)).title = "🚨 DSW Alert: Epic Fail" := by
  decide

/-! ### Claim C6 -/

/-- Claim C6: the fetch query returns exactly the rows with
`is_dsw = true` and `dsw_announced = false`; hence an already announced
entity is never fetched again, and a tick whose fetch result is empty
performs nothing beyond the fetch call itself (so a second run over a
fully announced table performs no synthesis, upload, injection or
acknowledgement and inserts no second queue row). -/
theorem C6_fetch_excludes_announced (table : List Song) (s : Song)
    (h : s.dsw_announced = true) :
    s ∉ fetchDead table ∧
    (∀ t, t ∈ fetchDead table ↔
      t ∈ table ∧ t.is_dsw = true ∧ t.dsw_announced = false) ∧
    (∀ env : Env, env.fetchFails = false → fetchDead table = [] →
      check_for_dead_songs env table = (table, [Event.fetchCall])) := by
  have hiff : ∀ t : Song, t ∈ fetchDead table ↔
      t ∈ table ∧ t.is_dsw = true ∧ t.dsw_announced = false := by
    intro t
    simp [fetchDead, List.mem_filter]
  refine ⟨?_, hiff, ?_⟩
  · intro hmem
    rcases (hiff s).mp hmem with ⟨_, _, hfalse⟩
    rw [h] at hfalse
    cases hfalse
  · intro env hnf hempty
    rw [check_unfold env table hnf, hempty, process_batch_nil]
    simp

/-- Claim C6, witness at a concrete input: an announced entity. -/
theorem C6_witness :
    setAnnounced songA ∉ fetchDead [setAnnounced songA] ∧
    (∀ t, t ∈ fetchDead [setAnnounced songA] ↔
      t ∈ [setAnnounced songA] ∧ t.is_dsw = true ∧ t.dsw_announced = false) ∧
    (∀ env : Env, env.fetchFails = false → fetchDead [setAnnounced songA] = [] →
      check_for_dead_songs env [setAnnounced songA] =
        ([setAnnounced songA], [Event.fetchCall])) :=
  C6_fetch_excludes_announced [setAnnounced songA] (setAnnounced songA) (by decide)

/-! ### Claim C7 -/

/-- Claim C7, counterexample.  The TTS endpoint answers with status 300 —
a non-2xx status — and a non-empty body; `raise_for_status` raises only
for 4xx/5xx, so the response is not treated as a synthesis failure: the
entity is uploaded, injected and acknowledged rather than skipped. -/
theorem C7_counterexample :
    env300.tts (dswScript songA) = HttpOutcome.response 300 [7] ∧
    (check_for_dead_songs env300 [songA]).1 =
      [setAnnounced songA,
       queueEntry 100 "https://cdn.example/ai_dj/dsw_alert_abcd1234.mp3"
         ("🚨 DSW Alert: " ++ songA.title)] ∧
    Event.uploadCall "ai_dj/dsw_alert_abcd1234.mp3" ∈
      (check_for_dead_songs env300 [songA]).2 := by
  decide

/-- Claim C7, amended.  Each of the following synthesis outcomes — a
network/timeout error, an HTTP error response with a 4xx/5xx status
(exactly those raised by `raise_for_status`), and any non-raising
response with an empty body — is treated as the single outcome
"synthesis failed": the entity is skipped with no upload, no injection
and no acknowledgement call, the table is unchanged, and no exception
escapes the iteration. -/
theorem C7_synthesis_failure_modes_skip (env : Env) (k : Nat)
    (table : List Song) (song : Song)
    (h : env.tts (dswScript song) = HttpOutcome.netError ∨
         (∃ st body, env.tts (dswScript song) = HttpOutcome.response st body ∧
            raisesForStatus st = true) ∨
         (∃ st, env.tts (dswScript song) = HttpOutcome.response st [])) :
    (process_song env k table song).1 = table ∧
    (process_song env k table song).2.2 = false ∧
    (∀ p, Event.uploadCall p ∉ (process_song env k table song).2.1) ∧
    (∀ q, Event.insertCall q ∉ (process_song env k table song).2.1) ∧
    (∀ i, Event.ackCall i ∉ (process_song env k table song).2.1) := by
  have h1f : truthyBytes (generate_voicebox_audio env (dswScript song)).1 = false := by
    rcases h with hc | ⟨st, body, hc, hr⟩ | ⟨st, hc⟩
    · simp [generate_voicebox_audio, hc, truthyBytes]
    · simp [generate_voicebox_audio, hc, hr, truthyBytes]
    · cases hr : raisesForStatus st <;>
        simp [generate_voicebox_audio, hc, hr, truthyBytes]
  rw [process_song_synthFail env k table song h1f]
  rcases gen_shape env (dswScript song) with hg | hg <;> rw [hg] <;>
    refine ⟨rfl, rfl, ?_, ?_, ?_⟩ <;> simp

/-- Environment for the C7 witness: the TTS request raises. -/
def envNetFail : Env := { envOk with tts := fun _ => HttpOutcome.netError }

/-- Claim C7, witness for the amended theorem at a concrete input. -/
theorem C7_witness :
    (process_song envNetFail 0 [songA] songA).1 = [songA] ∧
    (process_song envNetFail 0 [songA] songA).2.2 = false ∧
    (∀ p, Event.uploadCall p ∉ (process_song envNetFail 0 [songA] songA).2.1) ∧
    (∀ q, Event.insertCall q ∉ (process_song envNetFail 0 [songA] songA).2.1) ∧
    (∀ i, Event.ackCall i ∉ (process_song envNetFail 0 [songA] songA).2.1) :=
  C7_synthesis_failure_modes_skip envNetFail 0 [songA] songA (Or.inl (by decide))

/-! ### Claim C8 -/

/-- Claim C8: over a whole tick, every pre-existing row position either
keeps its row unchanged or has exactly its `dsw_announced` flag set to
true.  No write ever clears the flag, so per row the transition is
false-to-true at most once and never reverts (freshly inserted queue rows
only appear after the pre-existing positions). -/
theorem C8_announced_monotone (env : Env) (table : List Song) :
    table.length ≤ ((check_for_dead_songs env table).1).length ∧
    ∀ i, i < table.length →
      (((check_for_dead_songs env table).1)[i]? = table[i]? ∨
       ((check_for_dead_songs env table).1)[i]? = (table[i]?).map setAnnounced) :=
  rowsMono_check env table

/-- Claim C8, witness at a concrete input. -/
theorem C8_witness :
    ((check_for_dead_songs envOk [songA]).1)[0]? = [songA][0]? ∨
    ((check_for_dead_songs envOk [songA]).1)[0]? = ([songA][0]?).map setAnnounced :=
  (C8_announced_monotone envOk [songA]).2 0 (by decide)

/-! ### Claim C9 -/

/-- Claim C9: the storage path is the fixed prefix `ai_dj/dsw_alert_`
plus the freshly drawn random identifier plus `.mp3`; two runs whose
random identifiers differ produce distinct storage paths, and every
upload call of an iteration targets exactly the path built from the
identifier drawn for that iteration. -/
theorem C9_storage_paths (env : Env) (k : Nat) (table : List Song)
    (song : Song) (r1 r2 : String) (hne : r1 ≠ r2) :
    storagePathOf r1 ≠ storagePathOf r2 ∧
    ∀ p, Event.uploadCall p ∈ (process_song env k table song).2.1 →
      p = storagePathOf (env.uuidHex k) := by
  refine ⟨fun hcontra => hne (storagePathOf_injective r1 r2 hcontra), ?_⟩
  intro p hp
  rcases process_song_events env k table song _ hp with
    ⟨t, a, h'⟩ | ⟨t, h'⟩ | ⟨t, h'⟩ | h' | h' | h' | h' | h' | ⟨q, h'⟩ | h' | h' | h' <;>
    simp_all [storagePathOf, mkFilename]

/-- Claim C9, witness at a concrete input. -/
theorem C9_witness :
    storagePathOf "aaaa0000" ≠ storagePathOf "bbbb1111" ∧
    ∀ p, Event.uploadCall p ∈ (process_song envOk 0 [songA] songA).2.1 →
      p = storagePathOf (envOk.uuidHex 0) :=
  C9_storage_paths envOk 0 [songA] songA "aaaa0000" "bbbb1111" (by decide)

/-! ### Claim C10 -/

/-- Claim C10: frame property of the acknowledgement update.  The update
adds and removes no rows; a row whose id does not match the filter is
completely unchanged (in particular every queue row with another id, so
the playback queue content is untouched); a row whose id matches keeps
every field except `dsw_announced`, which becomes true. -/
theorem C10_ack_frame (table : List Song) (idv : Nat) :
    (acknowledge table idv).length = table.length ∧
    ∀ i, i < table.length → ∀ s, table[i]? = some s →
      ∃ s', (acknowledge table idv)[i]? = some s' ∧
        s'.id = s.id ∧ s'.uploader_id = s.uploader_id ∧ s'.title = s.title ∧
        s'.artist_name = s.artist_name ∧ s'.source = s.source ∧
        s'.audio_url = s.audio_url ∧ s'.duration_sec = s.duration_sec ∧
        s'.status = s.status ∧ s'.cover_art_url = s.cover_art_url ∧
        s'.is_canvas = s.is_canvas ∧ s'.is_dsw = s.is_dsw ∧
        (s.id ≠ idv → s' = s) ∧ (s.id = idv → s'.dsw_announced = true) := by
  refine ⟨by simp [acknowledge], ?_⟩
  intro i hi s hs
  refine ⟨if s.id = idv then setAnnounced s else s, ?_, ?_⟩
  · rw [acknowledge, List.getElem?_map, hs]
    rfl
  · by_cases hcase : s.id = idv <;> simp [hcase, setAnnounced]

/-- Claim C10, witness at a concrete input. -/
theorem C10_witness :
    ∃ s', (acknowledge [songA] 1)[0]? = some s' ∧
      s'.id = songA.id ∧ s'.uploader_id = songA.uploader_id ∧
      s'.title = songA.title ∧ s'.artist_name = songA.artist_name ∧
      s'.source = songA.source ∧ s'.audio_url = songA.audio_url ∧
      s'.duration_sec = songA.duration_sec ∧ s'.status = songA.status ∧
      s'.cover_art_url = songA.cover_art_url ∧
      s'.is_canvas = songA.is_canvas ∧ s'.is_dsw = songA.is_dsw ∧
      (songA.id ≠ 1 → s' = songA) ∧ (songA.id = 1 → s'.dsw_announced = true) :=
  (C10_ack_frame [songA] 1).2 0 (by decide) songA (by decide)

end DJPython
